import Mathlib

/-!
Shallow embedding of the job-processing backend (`backend/app`): the job
data model and CRUD (`job_crud.py`, `models.py`), the completion-callback
endpoint and background dispatch (`main.py`), the websocket notification
hub (`websocket_manager.py`), and the results parser
(`parsers/job_results.py`).

Modelling conventions:
- A database row addressed by one request is an `Option Job` (the result of
  the `get_job` / `get_job_by_uuid` lookup); correlation ids are unique, so
  per-row state captures the SQL operations, which never touch other rows.
- Timestamps (`func.now()`, `datetime.utcnow()`) are passed in explicitly.
- Python `float` cell values are modelled as rationals `ℚ`.
- Fallible endpoints return `Except HttpError` mirroring `HTTPException`.
-/

/-- Model of `fastapi.HTTPException`: a status code plus a detail string. -/
structure HttpError where
  code : Nat
  detail : String
deriving DecidableEq, Repr

/-- Python truthiness of an `Optional[str]`: `None` and `""` are falsy. -/
def optStrTruthy : Option String → Bool
  | some s => s ≠ ""
  | none => false

/-- Python `str.lower` (kernel-reducible model of `String.toLower`). -/
def strLower (s : String) : String :=
  ⟨s.data.map Char.toLower⟩

/-- Python `str.strip` (kernel-reducible model of `String.trim`). -/
def strTrim (s : String) : String :=
  ⟨((s.data.dropWhile Char.isWhitespace).reverse.dropWhile
      Char.isWhitespace).reverse⟩

/-- Python `str.startswith`. -/
def strStartsWith (s pat : String) : Bool :=
  pat.data.isPrefixOf s.data

/-- Python slicing `s[n:]`. -/
def strDrop (s : String) (n : Nat) : String :=
  ⟨s.data.drop n⟩

/-- Fuelled core of `strReplace`: replaces non-overlapping occurrences of
`old` left to right (the fuel, set to the string length, only matters for
the unused empty-`old` case). -/
def strReplaceAux (old new : List Char) : Nat → List Char → List Char
  | _, [] => []
  | 0, l => l
  | fuel + 1, c :: cs =>
    if old.isPrefixOf (c :: cs) then
      new ++ strReplaceAux old new fuel ((c :: cs).drop old.length)
    else
      c :: strReplaceAux old new fuel cs

/-- Python `str.replace` (kernel-reducible model of `String.replace`). -/
def strReplace (s old new : String) : String :=
  ⟨strReplaceAux old.data new.data s.data.length s.data⟩

/-- A spreadsheet cell value as yielded by `openpyxl` with
`data_only=True`: empty cell, string, integer, float (modelled as `ℚ`) or
boolean. -/
inductive Cell where
  | null
  | str (s : String)
  | int (n : Int)
  | float (q : ℚ)
  | bool (b : Bool)
deriving DecidableEq, Repr

/-- Python `str()` on a cell value.  Float repr is rendered exactly for
integral values (`str(3.0) = "3.0"`); non-integral rationals fall back to
a `num/den` rendering, which no claim exercises. -/
def py_str : Cell → String
  | Cell.null => "None"
  | Cell.str s => s
  | Cell.int n => toString n
  | Cell.float q => if q.den = 1 then toString q.num ++ ".0" else toString q
  | Cell.bool b => if b then "True" else "False"

/-- Splits off the leading run of ASCII digits. -/
def takeDigits : List Char → List Char × List Char
  | [] => ([], [])
  | c :: cs =>
    if c.isDigit then
      let (d, rest) := takeDigits cs
      (c :: d, rest)
    else ([], c :: cs)

/-- Reads an optional leading `+`/`-` sign. -/
def parseSign : List Char → Int × List Char
  | '+' :: cs => (1, cs)
  | '-' :: cs => (-1, cs)
  | cs => (1, cs)

/-- Digit run to a natural number. -/
def digitsToNat (l : List Char) : Nat :=
  l.foldl (fun a c => a * 10 + (c.toNat - 48)) 0

/-- Model of Python `float(s)` over the finite decimal grammar: optional
surrounding whitespace, optional sign, a digit string with an optional
decimal point (at least one digit overall), and an optional signed
exponent.  Non-finite literals (`inf`, `nan`) are outside the rational
model; anything else is a `ValueError`, i.e. `none`. -/
def py_parse_float (s : String) : Option ℚ :=
  let cs0 := (strTrim s).toList
  let (sgn, cs1) := parseSign cs0
  let (intDigits, cs2) := takeDigits cs1
  let (fracDigits, cs3) :=
    match cs2 with
    | '.' :: rest => takeDigits rest
    | _ => ([], cs2)
  if intDigits.isEmpty ∧ fracDigits.isEmpty then none
  else
    let mantissa : ℚ :=
      (sgn : ℚ) * ((digitsToNat intDigits : ℚ) +
        (digitsToNat fracDigits : ℚ) / ((10 : ℚ) ^ fracDigits.length))
    match cs3 with
    | [] => some mantissa
    | 'e' :: rest =>
      let (esgn, r1) := parseSign rest
      let (expDigits, r2) := takeDigits r1
      if expDigits.isEmpty ∨ ¬ r2.isEmpty then none
      else some (mantissa * (10 : ℚ) ^ (esgn * (digitsToNat expDigits : Int)))
    | 'E' :: rest =>
      let (esgn, r1) := parseSign rest
      let (expDigits, r2) := takeDigits r1
      if expDigits.isEmpty ∨ ¬ r2.isEmpty then none
      else some (mantissa * (10 : ℚ) ^ (esgn * (digitsToNat expDigits : Int)))
    | _ => none

/-- Embeds `job_results._to_str`: `None` stays `None`; anything else is
`str(value).strip()`. -/
def _to_str : Cell → Option String
  | Cell.null => none
  | v => some (strTrim (py_str v))

/-- Embeds `job_results._to_float`: `None` and `""` give `None`; `int`/`float`
values (including `bool`, a Python `int` subclass) coerce directly;
strings are parsed after replacing `','` with `'.'`, with parse failure
caught and turned into `None`.  Total by construction. -/
def _to_float : Cell → Option ℚ
  | Cell.null => none
  | Cell.str s => if s = "" then none else py_parse_float (strReplace s "," ".")
  | Cell.int n => some (n : ℚ)
  | Cell.float q => some q
  | Cell.bool b => some (if b then 1 else 0)

/-- Python-dict insertion: overwrite the value in place if the key is
present, else append. -/
def dictInsert {α : Type} (d : List (String × α)) (k : String) (v : α) :
    List (String × α) :=
  if d.any (fun kv => kv.1 = k) then
    d.map (fun kv => if kv.1 = k then (k, v) else kv)
  else d ++ [(k, v)]

/-- Python-dict lookup (keys are unique, first match). -/
def dictGet {α : Type} (d : List (String × α)) (k : String) : Option α :=
  (d.find? (fun kv => kv.1 = k)).map Prod.snd

/-- Embeds `job_results._extract_max_probability`: scan the row for keys whose
lowercase form starts with `"prob@"`, coerce the value with `_to_float`,
and keep the strictly largest value with its label (lowercase key with
every `"prob@"` occurrence removed); the first maximum wins ties. -/
def _extract_max_probability (row : List (String × Cell)) :
    Option String × Option ℚ :=
  row.foldl
    (fun acc kv =>
      let key_lower := strLower kv.1
      if strStartsWith key_lower "prob@" then
        match _to_float kv.2 with
        | none => acc
        | some numeric =>
          match acc.2 with
          | none => (some (strReplace key_lower "prob@" ""), some numeric)
          | some best =>
            if numeric > best then (some (strReplace key_lower "prob@" ""), some numeric)
            else acc
      else acc)
    (none, none)

/-- Embeds `job_results._extract_probability_by_prefix`: the first key equal
(case-insensitively) to the reserved name yields `_to_float` of its value
(possibly `None`); no key yields `None`. -/
def _extract_probability_by_pfx (row : List (String × Cell))
    (reserved : String) : Option ℚ :=
  match row.find? (fun kv => strLower kv.1 = strLower reserved) with
  | some kv => _to_float kv.2
  | none => none

/-- The `_get(*keys)` closure of `_normalize_row`: for the first alias
whose lowercase form is in the header map, index the row's key list at the
mapped position and return that key's value; otherwise `None` (the
out-of-range index, reachable only with duplicate headers, also yields the
missing-value result here where Python would raise). -/
def _get (row : List (String × Cell)) (header_map : List (String × Nat)) :
    List String → Cell
  | [] => Cell.null
  | key :: rest =>
    match dictGet header_map (strLower key) with
    | some idx =>
      match (row.map Prod.fst).get? idx with
      | some original => (dictGet row original).getD Cell.null
      | none => Cell.null
    | none => _get row header_map rest

/-- One normalized output record of the parser. -/
structure NormalizedRow where
  study_uid : Option String
  series_uid : Option String
  probability_of_pathology : Option ℚ
  pathology : Option Bool
  time_of_processing : Option String
  most_dangerous_pathology_type : Option String
  hazard_probability : Option ℚ
  probability_of_anomaly : Option ℚ
deriving DecidableEq, Repr

/-- Embeds `job_results._normalize_row`. -/
def _normalize_row (row : List (String × Cell))
    (header_map : List (String × Nat)) : NormalizedRow :=
  let study_uid := _to_str (_get row header_map ["study_uid"])
  let series_uid := _to_str (_get row header_map ["series_uid"])
  let probability := _to_float
    (_get row header_map ["probability_of_pathology", "probability_of_pathology_percent"])
  let pathology : Option Bool :=
    match _get row header_map ["pathology"] with
    | Cell.bool b => some b
    | Cell.str s =>
      some (strLower (strTrim s) = "true" ∨ strLower (strTrim s) = "1" ∨
            strLower (strTrim s) = "yes" ∨ strLower (strTrim s) = "да")
    | _ => none
  let time_of_processing := _to_str
    (_get row header_map ["time_of_processing", "processing_time", "time_of_analysis"])
  let dangerous_type := _to_str (_get row header_map ["most_dangerous_pathology_type"])
  let hazard := _extract_max_probability row
  let dangerous_type :=
    if ¬ optStrTruthy dangerous_type ∧ optStrTruthy hazard.1 then hazard.1
    else dangerous_type
  let probability_of_anomaly := _to_float
    (_get row header_map ["probability_of_anomaly", "probability_of_anomaly_percent", "anom_score"])
  let probability_of_anomaly :=
    match probability_of_anomaly with
    | none => _extract_probability_by_pfx row "prob@anomaly"
    | some q => some q
  { study_uid := study_uid
    series_uid := series_uid
    probability_of_pathology := probability
    pathology := pathology
    time_of_processing := time_of_processing
    most_dangerous_pathology_type := dangerous_type
    hazard_probability := hazard.2
    probability_of_anomaly := probability_of_anomaly }

/-- The structured output of `parse_job_xlsx`: the embedded
`datetime.utcnow().isoformat()` stamp, the summary count
(`"Количество исследований"`), and the normalized rows. -/
structure ParseResult where
  parsed_at : String
  summary_count : Nat
  rows : List NormalizedRow
deriving DecidableEq, Repr

/-- The `{headers[i]: raw_values[i]}` dict of `parse_job_xlsx` (duplicate
headers overwrite in place); `openpyxl` yields rows padded to the sheet's
width, so a missing cell reads as `None`. -/
def build_raw_row (headers : List String) (raw_values : List Cell) :
    List (String × Cell) :=
  (List.range headers.length).foldl
    (fun d i => dictInsert d (headers.getD i "") (raw_values.getD i Cell.null)) []

/-- Embeds `job_results.parse_job_xlsx` over the decoded active sheet (first row
= headers, rest = data; `load_workbook` is a deterministic decode of the
artifact bytes).  Sets `parsed_at` to the wall-clock time of the call
(`now_iso`), skips rows that are entirely `None`/`""`, and normalizes the
rest (`_normalize_row` always returns a non-empty, hence truthy, dict). -/
def parse_job_xlsx (now_iso : String) (sheet : List (List Cell)) : ParseResult :=
  match sheet with
  | [] => { parsed_at := now_iso, summary_count := 0, rows := [] }
  | header_row :: data_rows =>
    let headers := header_row.map (fun c =>
      match c with
      | Cell.null => ""
      | v => strTrim (py_str v))
    let header_map := headers.enum.foldl
      (fun d p => dictInsert d (strLower p.2) p.1) []
    let parsed_rows := data_rows.foldl
      (fun acc raw_values =>
        if raw_values.isEmpty ∨
            raw_values.all (fun v => v = Cell.null ∨ v = Cell.str "") then acc
        else acc ++ [_normalize_row (build_raw_row headers raw_values) header_map])
      []
    { parsed_at := now_iso
      summary_count := parsed_rows.length
      rows := parsed_rows }

/-- The `jobs` table row (`models.Job`).  Nullable columns are `Option`;
`zip_contents` (a JSON dump of the manifest list) and `results_payload`
(a JSON dump of the parse result) are modelled as the structured values
themselves: the dump is injective and never empty, so the JSON round-trip
is the identity and truthiness is `Option.isSome`. -/
structure Job where
  id : Nat
  uuid : String
  title : Option String := none
  description : Option String := none
  status : String := "pending"
  file_path : Option String := none
  file_name : Option String := none
  file_size : Option Nat := none
  file_content_type : Option String := none
  file_type : Option String := some "single"
  zip_contents : Option (List String) := none
  results_payload : Option ParseResult := none
  results_parsed_at : Option Nat := none
  owner_id : Nat
  created_at : Nat := 0
  updated_at : Option Nat := none
  completed_at : Option Nat := none
deriving DecidableEq, Repr

/-- Model of `schemas.JobCreate`. -/
structure JobCreate where
  title : Option String := none
  description : Option String := none
deriving DecidableEq, Repr

/-- Model of `schemas.JobCompletionPayload`. -/
structure JobCompletionPayload where
  status : String
  output_object : Option String := none
  file_size : Option Nat := none
  file_name : Option String := none
deriving DecidableEq, Repr

/-- Embeds `job_crud.create_job`: builds the row with `file_type="single"`, a fresh
`uuid4`, and the column defaults (`status="pending"`, `created_at=now()`).
The storage-assigned id and the generated uuid are passed in. -/
def create_job (job : JobCreate) (owner_id : Nat) (new_id : Nat)
    (fresh_uuid : String) (now : Nat) : Job :=
  { id := new_id
    uuid := fresh_uuid
    title := job.title
    description := job.description
    status := "pending"
    file_type := some "single"
    owner_id := owner_id
    created_at := now }

/-- Embeds `job_crud.update_job_status`: sets the new status unconditionally and
stamps `completed_at = func.now()` when the new status is one of
`{"completed", "succeeded", "success"}`.  `none` is the not-found case. -/
def update_job_status (now : Nat) (row : Option Job) (status : String) :
    Option Job :=
  match row with
  | none => none
  | some db_job =>
    let db_job := { db_job with status := status }
    if status = "completed" ∨ status = "succeeded" ∨ status = "success" then
      some { db_job with completed_at := some now }
    else
      some db_job

/-- Embeds `job_crud.update_job_file_info`: sets the file metadata columns; the
zip manifest is stored only when the list is truthy (non-empty). -/
def update_job_file_info (row : Option Job) (file_name : String)
    (file_size : Nat) (file_content_type : Option String)
    (file_path : String) (file_type : String)
    (zip_contents : Option (List String)) : Option Job :=
  match row with
  | none => none
  | some db_job =>
    let db_job := { db_job with
      file_name := some file_name
      file_size := some file_size
      file_content_type := file_content_type
      file_path := some file_path
      file_type := some file_type }
    match zip_contents with
    | some zc => if zc ≠ [] then some { db_job with zip_contents := some zc }
                 else some db_job
    | none => some db_job

/-- The spec's §4.3 transition table, written from the spec's words (to be
compared against the code): `pending → queued → processing → {succeeded |
failed}`, plus `queued → failed`; terminal states accept no transition. -/
def spec_allowed_transition (from_ to_ : String) : Bool :=
  (from_ = "pending" ∧ to_ = "queued") ∨
  (from_ = "queued" ∧ to_ = "processing") ∨
  (from_ = "processing" ∧ to_ = "succeeded") ∨
  (from_ = "processing" ∧ to_ = "failed") ∨
  (from_ = "queued" ∧ to_ = "failed")

/-- Terminal statuses per the spec's glossary. -/
def is_terminal_status (s : String) : Bool :=
  s = "succeeded" ∨ s = "failed"

/-- The broadcast envelope built by `main._job_payload`:
`{"type": "job.update", "job": <snapshot>}`.  Only the fields the hub and
the claims inspect are carried: the envelope type and the embedded job
status (`none` models an envelope without a job status). -/
structure WsMessage where
  msg_type : String
  job_status : Option String
deriving DecidableEq, Repr

/-- Embeds `main._job_payload`. -/
def _job_payload (job : Job) : WsMessage :=
  { msg_type := "job.update", job_status := some job.status }

/-- Embeds `main._validate_ml_service_token`: skipped when no secret is configured
(`ML_SERVICE_TOKEN` unset or empty, i.e. falsy); otherwise a missing header
is a 401, a `bearer `-prefixed header (case-insensitive) is stripped of its
first 7 characters, and a mismatch is a 401. -/
def _validate_ml_service_token (expected : Option String)
    (auth_header : Option String) : Except HttpError Unit :=
  if ¬ optStrTruthy expected then Except.ok ()
  else
    match auth_header with
    | none => Except.error ⟨401, "Missing ML service token"⟩
    | some h =>
      let token := if strStartsWith (strLower h) "bearer " then strDrop h 7 else h
      if some token = expected then Except.ok ()
      else Except.error ⟨401, "Invalid ML service token"⟩

/-- Result of the completion endpoint: the HTTP response, the job row after
the request, and the broadcasts scheduled. -/
structure CompleteResult where
  response : Except HttpError Job
  row : Option Job
  broadcasts : List WsMessage
deriving Repr

/-- Embeds `main.complete_job` (`POST /internal/jobs/{id}/completion`): validates
the shared-secret token, looks up the job (`row` is the lookup result),
then assigns `payload.status` directly and overwrites `file_path` /
`file_size` / `file_name` from the truthy payload fields.  Note: it does
not touch `completed_at`. -/
def complete_job (expected : Option String) (auth_header : Option String)
    (row : Option Job) (payload : JobCompletionPayload) : CompleteResult :=
  match _validate_ml_service_token expected auth_header with
  | Except.error e => { response := Except.error e, row := row, broadcasts := [] }
  | Except.ok _ =>
    match row with
    | none =>
      { response := Except.error ⟨404, "Job not found"⟩, row := row, broadcasts := [] }
    | some job =>
      let job := { job with status := payload.status }
      let job :=
        match payload.output_object with
        | some s => if s ≠ "" then { job with file_path := some s } else job
        | none => job
      let job :=
        match payload.file_size with
        | some n => { job with file_size := some n }
        | none => job
      let job :=
        match payload.file_name with
        | some s => if s ≠ "" then { job with file_name := some s } else job
        | none => job
      { response := Except.ok job, row := some job, broadcasts := [_job_payload job] }

/-- Model of `ml.adapter.InferenceRequest`. -/
structure InferenceRequest where
  job_uuid : String
  input_object : String
  output_object : Option String := none
deriving DecidableEq, Repr

/-- Model of `ml.adapter.InferenceResult` (numeric `duration_seconds` dropped: no
claim reads it). -/
structure InferenceResult where
  job_uuid : String
  output_object : String
  file_size : Nat
deriving DecidableEq, Repr

/-- Outcome of the outbound `POST /infer` HTTP exchange: a transport
failure (`httpx.RequestError`) or a response with a status code and body. -/
inductive HttpResult where
  | transportError
  | response (code : Nat) (body : InferenceResult)
deriving DecidableEq, Repr

/-- Errors `ModelAdapter.run_inference` raises. -/
inductive InferenceError where
  | requestError
  | httpStatusError (code : Nat)
deriving DecidableEq, Repr

/-- Embeds `ml.adapter.ModelAdapter.run_inference`: re-raises a transport error;
`raise_for_status` raises on any non-2xx code; otherwise returns the
decoded `InferenceResult`. -/
def run_inference (request : InferenceRequest) (exchange : HttpResult) :
    Except InferenceError InferenceResult :=
  match exchange with
  | HttpResult.transportError => Except.error InferenceError.requestError
  | HttpResult.response code body =>
    if 200 ≤ code ∧ code < 300 then
      Except.ok { body with job_uuid := request.job_uuid }
    else
      Except.error (InferenceError.httpStatusError code)

/-- Embeds `main.process_job`, the detached background dispatch task.  `row` is
the job row addressed by `job_uuid` (the by-uuid / numeric-fallback
lookup); both lookups inside the task return the current state of that
row.  The `try` block marks the job `processing` and broadcasts, then runs
inference; the `except Exception` block re-fetches the row, assigns
`status = "failed"` directly, commits and broadcasts. -/
def process_job (now : Nat) (row : Option Job) (request : InferenceRequest)
    (exchange : HttpResult) : Option Job × List WsMessage :=
  let step1 : Option Job × List WsMessage :=
    match row with
    | none => (row, [])
    | some job =>
      match update_job_status now (some job) "processing" with
      | some updated => (some updated, [_job_payload updated])
      | none => (some job, [])
  let (row1, msgs1) := step1
  match run_inference request exchange with
  | Except.ok _ => (row1, msgs1)
  | Except.error _ =>
    match row1 with
    | none => (row1, msgs1)
    | some job =>
      let job := { job with status := "failed" }
      (some job, msgs1 ++ [_job_payload job])

/-- One live websocket connection in the hub's registry for a job.
`send_ok` abstracts whether `send_json` on it succeeds (a raising send is
the failure case; whether the subsequent `close` call raises changes
nothing observable, so it is not modelled separately). -/
structure Conn where
  id : Nat
  send_ok : Bool
deriving DecidableEq, Repr

/-- Terminal detection in `JobWebSocketManager.broadcast`: the embedded
job status, lowercased, is one of the recognized terminal spellings. -/
def is_terminal_message (message : WsMessage) : Bool :=
  match message.job_status with
  | some s => strLower s = "succeeded" ∨ strLower s = "success" ∨
              strLower s = "failed" ∨ strLower s = "completed"
  | none => false

/-- The fan-out loop of `JobWebSocketManager.broadcast`, in iteration
order: for each connection, a successful send records it as sent and — on
a terminal message — the server closes it and marks it disconnected; a
failing send marks it disconnected without a close.  Returns
`(sent ids, closed ids, disconnected connections)`. -/
def fan_out (terminal : Bool) : List Conn → List Nat × List Nat × List Conn
  | [] => ([], [], [])
  | c :: rest =>
    let (sent, closed, disc) := fan_out terminal rest
    if c.send_ok then
      if terminal then (c.id :: sent, c.id :: closed, c :: disc)
      else (c.id :: sent, closed, disc)
    else (sent, closed, c :: disc)

/-- Observable outcome of one `broadcast` call on one job's registry
entry. -/
structure BroadcastResult where
  registry : List Conn
  sent : List Nat
  closed : List Nat
deriving Repr

/-- Embeds `JobWebSocketManager.broadcast` for one job id: snapshots the
connection list (early return on empty), computes terminality of the
message, fans out, then removes every disconnected connection from the
registry (dropping the job's entry when it empties — per-job view: the
list becomes `[]`). -/
def broadcast (conns : List Conn) (message : WsMessage) : BroadcastResult :=
  if conns.isEmpty then { registry := conns, sent := [], closed := [] }
  else
    let terminal := is_terminal_message message
    let (sent, closed, disconnected) := fan_out terminal conns
    { registry := conns.filter (fun c => ¬ disconnected.contains c)
      sent := sent
      closed := closed }

/-- Server-side actions of the `/ws/jobs/{job_id}` handler, in order. -/
inductive ServerAction where
  | accept
  | register
  | send (message : WsMessage)
  | send_not_found (job_id : String)
  | close
  | unregister
deriving DecidableEq, Repr

/-- Embeds `main.job_updates_ws`: `manager.connect` (accept + register), then the
initial snapshot (`job.update` payload, or `job.not_found`), then a
receive loop that only ends when the peer disconnects, and finally
`manager.disconnect`.  The handler never calls `websocket.close()`
itself. -/
def job_updates_ws (job_id : String) (row : Option Job) : List ServerAction :=
  [ServerAction.accept, ServerAction.register] ++
  (match row with
   | some job => [ServerAction.send (_job_payload job)]
   | none => [ServerAction.send_not_found job_id]) ++
  [ServerAction.unregister]

/-- The uploaded file of a `POST /jobs` request: the claimed name, the
declared content type, and the size derived by seeking to the stream's
end (`none` when the seek fails). -/
structure UploadedFile where
  filename : String
  content_type : Option String := none
  size : Option Nat := none
deriving DecidableEq, Repr

/-- Observable outcome of `POST /jobs`. -/
structure CreateJobOutcome where
  response : Except HttpError Job
  store_write_attempted : Bool
  job_row : Option Job
  broadcasts : List WsMessage
  dispatched : Bool
deriving Repr

/-- Embeds `main.create_job` (`POST /jobs`).  The format-sniffing and archive
validation live in `zip_utils` (not under `src/`), so their verdicts
enter as the oracle inputs `is_zip` / `zip_valid` (with
`validation_error` the message of a failed validation); `upload_ok` /
`upload_path` stand for the MinIO collaborator's answer, and
`zip_manifest` for `zip_utils.get_zip_contents_stream`.  Control flow as
in the source: create the row; if no (named) file, broadcast and return;
for a zip that fails validation, delete the row and raise 400 before any
store write; then upload (on failure delete the row and raise 500),
record file info, move to `queued`, broadcast and dispatch. -/
def create_job_endpoint (title description : Option String)
    (file : Option UploadedFile) (is_zip zip_valid : Bool)
    (validation_error : String) (upload_ok : Bool) (upload_path : String)
    (zip_manifest : List String) (owner_id new_id : Nat)
    (fresh_uuid : String) (now : Nat) : CreateJobOutcome :=
  let job_title :=
    if ¬ optStrTruthy title ∧ optStrTruthy (Option.map UploadedFile.filename file) then
      Option.map UploadedFile.filename file
    else title
  let db_job := create_job ⟨job_title, description⟩ owner_id new_id fresh_uuid now
  let has_file := optStrTruthy (Option.map UploadedFile.filename file)
  match file, has_file with
  | some f, true =>
    if is_zip ∧ ¬ zip_valid then
      { response := Except.error ⟨400, "Некорректный ZIP файл: " ++ validation_error⟩
        store_write_attempted := false
        job_row := none
        broadcasts := []
        dispatched := false }
    else if ¬ upload_ok then
      { response := Except.error ⟨500, "Ошибка загрузки файла"⟩
        store_write_attempted := true
        job_row := none
        broadcasts := []
        dispatched := false }
    else
      let file_type := if is_zip then "zip" else "single"
      let zip_contents := if is_zip then some zip_manifest else none
      let row1 := update_job_file_info (some db_job) f.filename (f.size.getD 0)
        f.content_type upload_path file_type zip_contents
      let db_job1 := row1.getD db_job
      let db_job2 := (update_job_status now (some db_job1) "queued").getD db_job1
      { response := Except.ok db_job2
        store_write_attempted := true
        job_row := some db_job2
        broadcasts := [_job_payload db_job2]
        dispatched := true }
  | _, _ =>
    { response := Except.ok db_job
      store_write_attempted := false
      job_row := some db_job
      broadcasts := [_job_payload db_job]
      dispatched := false }

/-- A job already in the terminal `succeeded` state. -/
def succeededJob : Job :=
  { id := 1
    uuid := "11111111-1111-1111-1111-111111111111"
    status := "succeeded"
    owner_id := 1
    completed_at := some 100 }

/-- A job mid-inference, with no `completed_at` yet. -/
def processingJob : Job :=
  { id := 2
    uuid := "22222222-2222-2222-2222-222222222222"
    status := "processing"
    owner_id := 1
    file_path := some "uploads/in.zip" }

/-- The completion payload of the spec's §8 scenario. -/
def abcPayload : JobCompletionPayload :=
  { status := "succeeded"
    output_object := some "jobs/abc.xlsx"
    file_size := some 4096 }

/-- The two-column, one-data-row sheet used in concrete parses. -/
def demoSheet : List (List Cell) :=
  [[Cell.str "study_uid", Cell.str "series_uid"],
   [Cell.str "s1", Cell.str "r1"]]

/-- Response body of `GET /jobs/{job_id}/results`. -/
structure ResultsResponse where
  job_id : String
  parsed_at : Option Nat
  results : ParseResult
  source : String
deriving DecidableEq, Repr

/-- Observable outcome of the results endpoint: the HTTP response, the job
row after the request, and the broadcasts scheduled. -/
structure GetResultsOutcome where
  response : Except HttpError ResultsResponse
  row : Option Job
  broadcasts : List WsMessage
deriving Repr

/-- Embeds `main.get_job_results` (`GET /jobs/{job_id}/results`): after the
not-found and owner checks, a present (truthy) `results_payload` is
returned as `source="cached"` with its stored parse timestamp; otherwise
`file_path` must be truthy (else 404 "not ready"), the artifact is fetched
from MinIO (`fetch` is the collaborator's answer: `none` a failed read,
the bytes entering as their deterministic `load_workbook` decode), parsed,
committed onto the row together with `results_parsed_at = utcnow()`,
broadcast, and returned as `source="fresh"`.  Per the `Job` model, the
JSON dump/load round-trip on the payload is the identity. -/
def get_job_results (job_id : String) (row : Option Job) (requester_id : Nat)
    (fetch : Option (List (List Cell))) (now_iso : String) (now : Nat) :
    GetResultsOutcome :=
  match row with
  | none =>
    { response := Except.error ⟨404, "Задание не найдено"⟩, row := row,
      broadcasts := [] }
  | some job =>
    if job.owner_id ≠ requester_id then
      { response := Except.error ⟨403, "Нет доступа к этому заданию"⟩,
        row := row, broadcasts := [] }
    else
      match job.results_payload with
      | some cached =>
        { response := Except.ok ⟨job_id, job.results_parsed_at, cached, "cached"⟩
          row := row, broadcasts := [] }
      | none =>
        if ¬ optStrTruthy job.file_path then
          { response := Except.error ⟨404, "Результат ещё не готов"⟩,
            row := row, broadcasts := [] }
        else
          match fetch with
          | none =>
            { response := Except.error
                ⟨500, "Не удалось загрузить результат из хранилища"⟩
              row := row, broadcasts := [] }
          | some sheet =>
            let parsed := parse_job_xlsx now_iso sheet
            let job := { job with
              results_payload := some parsed
              results_parsed_at := some now }
            { response := Except.ok ⟨job_id, some now, parsed, "fresh"⟩
              row := some job, broadcasts := [_job_payload job] }

/-- A job whose output artifact is stored but not yet materialized. -/
def resultsJob : Job :=
  { id := 3
    uuid := "44444444-4444-4444-4444-444444444444"
    status := "succeeded"
    owner_id := 1
    file_path := some "jobs/out.xlsx" }

/-- C1: the status-mutating operations validate nothing: `setStatus` moves
the terminal job `succeededJob` to `"pending"`, an edge absent from the
§4.3 table, refuting the claim that every transition follows the table
and that terminal states are never left. -/
theorem C1_counterexample :
    is_terminal_status succeededJob.status = true ∧
    spec_allowed_transition "succeeded" "pending" = false ∧
    (update_job_status 7 (some succeededJob) "pending").map Job.status =
      some "pending" := by decide

/-- C1 (amended): `update_job_status` and the completion endpoint assign
the requested status unconditionally — no transition-table edge is
validated, so any status (terminal ones included) can be overwritten with
any other. -/
theorem C1_amended (now : Nat) (j : Job) (s : String)
    (payload : JobCompletionPayload) :
    (update_job_status now (some j) s).map Job.status = some s ∧
    ∃ j', (complete_job none none (some j) payload).response = Except.ok j' ∧
      j'.status = payload.status := by
  constructor
  · unfold update_job_status
    by_cases h : s = "completed" ∨ s = "succeeded" ∨ s = "success" <;> simp [h]
  · simp only [complete_job, _validate_ml_service_token, optStrTruthy]
    rcases payload with ⟨st, oo, fs, fn⟩
    cases oo <;> cases fs <;> cases fn <;> simp <;> (repeat' split) <;> simp

/-- C2: the CRUD helper `update_job_status` does stamp `completed_at` on
entering `succeeded`, but the completion endpoint bypasses it: the §8
scenario callback (`status="succeeded"`, `output_object="jobs/abc.xlsx"`,
`file_size=4096`) updates those fields yet leaves `completed_at` null,
contradicting `completedAt non-null iff status = succeeded`. -/
theorem C2_callback_skips_completed_at :
    ((update_job_status 50 (some processingJob) "succeeded").bind
      Job.completed_at) = some 50 ∧
    (complete_job none none (some processingJob) abcPayload).response =
      Except.ok { processingJob with
        status := "succeeded"
        file_path := some "jobs/abc.xlsx"
        file_size := some 4096 } ∧
    ((complete_job none none (some processingJob) abcPayload).row.map
      Job.completed_at) = some none :=
  ⟨rfl, rfl, rfl⟩

/-- C3: `parse_job_xlsx` is not a pure function of the artifact bytes —
its output embeds the wall-clock `parsed_at` stamp, so two parses of the
same sheet at different instants differ. -/
theorem C3_counterexample :
    parse_job_xlsx "2025-01-01T00:00:00" demoSheet ≠
      parse_job_xlsx "2025-01-01T00:00:01" demoSheet := by
  intro h
  have h2 := congrArg ParseResult.parsed_at h
  exact absurd h2 (by decide)

/-- The data-dependent part of a parse does not depend on the call time. -/
lemma parse_job_xlsx_time_invariant (t1 t2 : String)
    (sheet : List (List Cell)) :
    (parse_job_xlsx t1 sheet).rows = (parse_job_xlsx t2 sheet).rows ∧
    (parse_job_xlsx t1 sheet).summary_count =
      (parse_job_xlsx t2 sheet).summary_count := by
  cases sheet <;> simp [parse_job_xlsx]

/-- C3 (amended): a first materialization on a cache miss parses the
stored artifact, returns the parse output tagged `fresh`, and caches
exactly that output on the row; when two materializations race from the
same miss, the cached payload after either write equals that writer's own
output, the two outputs have identical `rows` and summary count (parsing
is deterministic in the sheet, only the embedded `parsed_at` stamp varies
with the call time), and a later read returns the last-written cache
unchanged, tagged `cached`. -/
theorem C3_amended_materialization (job_id : String) (j : Job) (uid : Nat)
    (sheet : List (List Cell)) (tA tB t2 : String) (nA nB n2 : Nat)
    (fetch2 : Option (List (List Cell)))
    (hown : j.owner_id = uid) (hmiss : j.results_payload = none)
    (hfp : optStrTruthy j.file_path = true) :
    (get_job_results job_id (some j) uid (some sheet) tA nA).response =
      Except.ok ⟨job_id, some nA, parse_job_xlsx tA sheet, "fresh"⟩ ∧
    ((get_job_results job_id (some j) uid (some sheet) tA nA).row.bind
      Job.results_payload) = some (parse_job_xlsx tA sheet) ∧
    ((get_job_results job_id (some j) uid (some sheet) tB nB).row.bind
      Job.results_payload) = some (parse_job_xlsx tB sheet) ∧
    (parse_job_xlsx tA sheet).rows = (parse_job_xlsx tB sheet).rows ∧
    (parse_job_xlsx tA sheet).summary_count =
      (parse_job_xlsx tB sheet).summary_count ∧
    (get_job_results job_id
        (get_job_results job_id (some j) uid (some sheet) tA nA).row uid
        fetch2 t2 n2).response =
      Except.ok ⟨job_id, some nA, parse_job_xlsx tA sheet, "cached"⟩ := by
  have key : ∀ (t : String) (n : Nat),
      get_job_results job_id (some j) uid (some sheet) t n =
        { response := Except.ok ⟨job_id, some n, parse_job_xlsx t sheet, "fresh"⟩
          row := some { j with
            results_payload := some (parse_job_xlsx t sheet)
            results_parsed_at := some n }
          broadcasts := [⟨"job.update", some j.status⟩] } := by
    intro t n
    simp [get_job_results, hown, hmiss, hfp, _job_payload]
  refine ⟨?_, ?_, ?_, (parse_job_xlsx_time_invariant tA tB sheet).1,
    (parse_job_xlsx_time_invariant tA tB sheet).2, ?_⟩
  · rw [key]
  · rw [key]
    rfl
  · rw [key]
    rfl
  · rw [key]
    simp [get_job_results, hown]

/-- C3 witness: a concrete first materialization of `resultsJob` over
`demoSheet`, the cached row it leaves, and the agreement of two
time-stamped parses. -/
theorem C3_witness :
    (get_job_results "jid" (some resultsJob) 1 (some demoSheet) "t1" 11).response =
      Except.ok ⟨"jid", some 11, parse_job_xlsx "t1" demoSheet, "fresh"⟩ ∧
    ((get_job_results "jid" (some resultsJob) 1 (some demoSheet) "t1" 11).row.bind
      Job.results_payload) = some (parse_job_xlsx "t1" demoSheet) ∧
    (parse_job_xlsx "t1" demoSheet).rows = (parse_job_xlsx "t2" demoSheet).rows ∧
    (get_job_results "jid"
        (get_job_results "jid" (some resultsJob) 1 (some demoSheet) "t1" 11).row
        1 none "t3" 13).response =
      Except.ok ⟨"jid", some 11, parse_job_xlsx "t1" demoSheet, "cached"⟩ := by
  have h := C3_amended_materialization "jid" resultsJob 1 demoSheet "t1" "t2"
    "t3" 11 12 13 none rfl rfl (by decide)
  exact ⟨h.1, h.2.1, h.2.2.2.1, h.2.2.2.2.2⟩

/-- C4: an upload classified as an archive that fails archive validation
is rejected with a 400 validation error, no blob-store write is attempted,
and the partially-created job row is deleted. -/
theorem C4_invalid_zip_rejected (title description : Option String)
    (f : UploadedFile) (msg upload_path : String) (upload_ok : Bool)
    (manifest : List String) (owner_id new_id : Nat) (fresh_uuid : String)
    (now : Nat) (hname : f.filename ≠ "") :
    (create_job_endpoint title description (some f) true false msg upload_ok
        upload_path manifest owner_id new_id fresh_uuid now).response =
      Except.error ⟨400, "Некорректный ZIP файл: " ++ msg⟩ ∧
    (create_job_endpoint title description (some f) true false msg upload_ok
        upload_path manifest owner_id new_id fresh_uuid now).store_write_attempted
      = false ∧
    (create_job_endpoint title description (some f) true false msg upload_ok
        upload_path manifest owner_id new_id fresh_uuid now).job_row = none := by
  simp [create_job_endpoint, optStrTruthy, hname]

/-- C4 witness: a concrete bomb-like archive upload. -/
theorem C4_witness :
    (create_job_endpoint none none (some ⟨"bomb.zip", some "application/zip", some 128⟩)
        true false "zip bomb detected" true "uploads/x" [] 7 3 "u" 0).response =
      Except.error ⟨400, "Некорректный ZIP файл: zip bomb detected"⟩ ∧
    (create_job_endpoint none none (some ⟨"bomb.zip", some "application/zip", some 128⟩)
        true false "zip bomb detected" true "uploads/x" [] 7 3 "u" 0).store_write_attempted
      = false ∧
    (create_job_endpoint none none (some ⟨"bomb.zip", some "application/zip", some 128⟩)
        true false "zip bomb detected" true "uploads/x" [] 7 3 "u" 0).job_row = none :=
  C4_invalid_zip_rejected none none ⟨"bomb.zip", some "application/zip", some 128⟩
    "zip bomb detected" "uploads/x" true [] 7 3 "u" 0 (by decide)

/-- Closed form of the broadcast fan-out loop: successful sends in order;
on a terminal message every notified connection is closed and every
connection is disconnected, otherwise only the failed sends are. -/
lemma fan_out_eq (t : Bool) (l : List Conn) :
    fan_out t l =
      ((l.filter (fun c => c.send_ok)).map Conn.id,
       if t then (l.filter (fun c => c.send_ok)).map Conn.id else [],
       if t then l else l.filter (fun c => !c.send_ok)) := by
  induction l with
  | nil => cases t <;> simp [fan_out]
  | cons c rest ih =>
    cases hc : c.send_ok <;> cases t <;> simp [fan_out, hc, ih]

/-- A terminal broadcast disconnects every snapshotted connection, so the
job's registry entry is emptied. -/
lemma broadcast_terminal_registry_nil (conns : List Conn) (message : WsMessage)
    (ht : is_terminal_message message = true) :
    (broadcast conns message).registry = [] := by
  by_cases he : conns.isEmpty
  · rw [List.isEmpty_iff] at he
    simp [broadcast, he]
  · have hne : conns.isEmpty = false := by simpa using he
    simp only [broadcast, hne, Bool.false_eq_true, if_false, fan_out_eq, ht,
      if_true]
    rw [List.filter_eq_nil_iff]
    intro a ha
    simp [List.elem_iff, ha]

/-- On a terminal broadcast, every connection whose send succeeded is
among the closed ones. -/
lemma broadcast_terminal_closed_mem (conns : List Conn) (message : WsMessage)
    (ht : is_terminal_message message = true) (c : Conn) (hc : c ∈ conns)
    (hok : c.send_ok = true) : c.id ∈ (broadcast conns message).closed := by
  have hne : conns.isEmpty = false := by
    cases conns with
    | nil => cases hc
    | cons _ _ => rfl
  simp only [broadcast, hne, Bool.false_eq_true, if_false, fan_out_eq, ht, if_true]
  exact List.mem_map.mpr ⟨c, List.mem_filter.mpr ⟨hc, hok⟩, rfl⟩

/-- A connection whose send fails is removed from the registry whether or
not the message is terminal. -/
lemma broadcast_send_failure_removed (conns : List Conn) (message : WsMessage)
    (c : Conn) (hc : c ∈ conns) (hfail : c.send_ok = false) :
    c ∉ (broadcast conns message).registry := by
  have hne : conns.isEmpty = false := by
    cases conns with
    | nil => cases hc
    | cons _ _ => rfl
  simp only [broadcast, hne, Bool.false_eq_true, if_false, fan_out_eq]
  intro hmem
  rw [List.mem_filter] at hmem
  have hcd : c ∈ (if is_terminal_message message then conns
      else conns.filter (fun x => !x.send_ok)) := by
    split
    · exact hc
    · exact List.mem_filter.mpr ⟨hc, by simp [hfail]⟩
  have := hmem.2
  simp [List.elem_iff, hcd] at this

/-- C5: after a `broadcast` whose embedded status is terminal, every
just-notified connection is closed and the whole registry entry is
cleared; a connection whose send fails is removed regardless of
terminality. -/
theorem C5_broadcast_terminal_cleanup (conns : List Conn) (message : WsMessage) :
    (is_terminal_message message = true →
      (broadcast conns message).registry = [] ∧
      ∀ c ∈ conns, c.send_ok = true →
        c.id ∈ (broadcast conns message).closed) ∧
    (∀ c ∈ conns, c.send_ok = false →
      c ∉ (broadcast conns message).registry) :=
  ⟨fun ht => ⟨broadcast_terminal_registry_nil conns message ht,
    fun c hc hok => broadcast_terminal_closed_mem conns message ht c hc hok⟩,
   fun c hc hf => broadcast_send_failure_removed conns message c hc hf⟩

/-- C5 witness: a terminal broadcast over one healthy and one failing
connection clears the registry, closes the healthy one, and drops the
failing one. -/
theorem C5_witness :
    (broadcast [⟨1, true⟩, ⟨2, false⟩] ⟨"job.update", some "failed"⟩).registry
      = [] ∧
    (1 : Nat) ∈
      (broadcast [⟨1, true⟩, ⟨2, false⟩] ⟨"job.update", some "failed"⟩).closed ∧
    (⟨2, false⟩ : Conn) ∉
      (broadcast [⟨1, true⟩, ⟨2, false⟩] ⟨"job.update", some "failed"⟩).registry := by
  have h := C5_broadcast_terminal_cleanup [⟨1, true⟩, ⟨2, false⟩]
    ⟨"job.update", some "failed"⟩
  exact ⟨(h.1 (by decide)).1,
    (h.1 (by decide)).2 ⟨1, true⟩ (by decide) rfl,
    h.2 ⟨2, false⟩ (by decide) rfl⟩

/-- C6: a subscriber connecting to an already-terminal job is sent the
terminal snapshot, but the handler never closes the channel — refuting
"then closes the channel" / "never leaves a channel open after a terminal
snapshot has been pushed". -/
theorem C6_counterexample :
    is_terminal_status succeededJob.status = true ∧
    ServerAction.send (_job_payload succeededJob) ∈
      job_updates_ws "42" (some succeededJob) ∧
    ServerAction.close ∉ job_updates_ws "42" (some succeededJob) := by decide

/-- C6 (amended): on connect the handler immediately pushes the current
snapshot (terminal or not) and then merely waits for the peer; the
server-initiated close after a terminal snapshot happens only on the
`broadcast` path, which does clear the registry. -/
theorem C6_amended (job_id : String) (j : Job) :
    job_updates_ws job_id (some j) =
      [ServerAction.accept, ServerAction.register,
       ServerAction.send (_job_payload j), ServerAction.unregister] ∧
    ServerAction.close ∉ job_updates_ws job_id (some j) ∧
    ∀ conns message, is_terminal_message message = true →
      (broadcast conns message).registry = [] := by
  refine ⟨rfl, ?_, fun conns m ht => broadcast_terminal_registry_nil conns m ht⟩
  simp [job_updates_ws]

/-- C6 witness: the concrete terminal job and a one-connection registry. -/
theorem C6_witness :
    job_updates_ws "42" (some succeededJob) =
      [ServerAction.accept, ServerAction.register,
       ServerAction.send ⟨"job.update", some "succeeded"⟩,
       ServerAction.unregister] ∧
    (broadcast [⟨5, true⟩] ⟨"job.update", some "succeeded"⟩).registry = [] := by
  have h := C6_amended "42" succeededJob
  exact ⟨h.1, h.2.2 [⟨5, true⟩] ⟨"job.update", some "succeeded"⟩ (by decide)⟩

/-- C7: when the outbound inference call errors (transport failure or
non-2xx response), the background dispatch task marks the job `failed`
and broadcasts that update — the job's final status is `failed`, not a
silent hang in `processing`, and the last scheduled broadcast carries
`status = "failed"`. -/
theorem C7_local_failure_marks_failed (now : Nat) (j : Job)
    (request : InferenceRequest) (exchange : HttpResult) (e : InferenceError)
    (herr : run_inference request exchange = Except.error e) :
    (process_job now (some j) request exchange).1.map Job.status =
      some "failed" ∧
    (process_job now (some j) request exchange).2.getLast? =
      some ⟨"job.update", some "failed"⟩ ∧
    (process_job now (some j) request exchange).1.map Job.status ≠
      some "processing" := by
  have hp : process_job now (some j) request exchange =
      (some { j with status := "failed" },
       [⟨"job.update", some "processing"⟩, ⟨"job.update", some "failed"⟩]) := by
    unfold process_job
    rw [herr]
    rfl
  rw [hp]
  exact ⟨rfl, rfl, by simp⟩

/-- C7 witness: a transport failure on a concrete dispatched job. -/
theorem C7_witness :
    (process_job 0 (some processingJob)
        ⟨"22222222-2222-2222-2222-222222222222", "uploads/in.zip", none⟩
        HttpResult.transportError).1.map Job.status = some "failed" ∧
    (process_job 0 (some processingJob)
        ⟨"22222222-2222-2222-2222-222222222222", "uploads/in.zip", none⟩
        HttpResult.transportError).2.getLast? =
      some ⟨"job.update", some "failed"⟩ ∧
    (process_job 0 (some processingJob)
        ⟨"22222222-2222-2222-2222-222222222222", "uploads/in.zip", none⟩
        HttpResult.transportError).1.map Job.status ≠ some "processing" :=
  C7_local_failure_marks_failed 0 processingJob
    ⟨"22222222-2222-2222-2222-222222222222", "uploads/in.zip", none⟩
    HttpResult.transportError InferenceError.requestError rfl

/-- C8: whenever the shared-secret check fails, the completion endpoint
returns that error with the job row untouched and no broadcast; with no
secret configured the check is skipped; and a configured secret with a
mismatching presented token (after case-insensitive `bearer ` stripping)
is a 401. -/
theorem C8_bad_token_rejected_before_mutation (expected auth : Option String)
    (row : Option Job) (payload : JobCompletionPayload) :
    (∀ e, _validate_ml_service_token expected auth = Except.error e →
      (complete_job expected auth row payload).response = Except.error e ∧
      (complete_job expected auth row payload).row = row ∧
      (complete_job expected auth row payload).broadcasts = []) ∧
    (¬ optStrTruthy expected →
      _validate_ml_service_token expected auth = Except.ok ()) ∧
    (∀ secret header, secret ≠ "" →
      (if strStartsWith (strLower header) "bearer " then strDrop header 7
       else header) ≠ secret →
      _validate_ml_service_token (some secret) (some header) =
        Except.error ⟨401, "Invalid ML service token"⟩) := by
  refine ⟨fun e he => ?_, fun hskip => ?_, fun secret header hs hmis => ?_⟩
  · simp [complete_job, he]
  · simp [_validate_ml_service_token, hskip]
  · have htr : optStrTruthy (some secret) = true := by
      simp [optStrTruthy, hs]
    simp only [_validate_ml_service_token, htr, Bool.true_eq_false,
      not_true_eq_false, if_false]
    simp [hmis]

/-- C8 witness: the §8 scenario — a wrong bearer token against a
configured secret leaves the terminal job and every field unchanged. -/
theorem C8_witness :
    _validate_ml_service_token (some "s3cret") (some "Bearer wrong") =
      Except.error ⟨401, "Invalid ML service token"⟩ ∧
    (complete_job (some "s3cret") (some "Bearer wrong") (some succeededJob)
        ⟨"failed", none, none, none⟩).row = some succeededJob ∧
    (complete_job (some "s3cret") (some "Bearer wrong") (some succeededJob)
        ⟨"failed", none, none, none⟩).broadcasts = [] ∧
    _validate_ml_service_token none (some "Bearer wrong") = Except.ok () := by
  have h := C8_bad_token_rejected_before_mutation (some "s3cret")
    (some "Bearer wrong") (some succeededJob) ⟨"failed", none, none, none⟩
  have hv := h.2.2 "s3cret" "Bearer wrong" (by decide) (by decide)
  have h2 := h.1 ⟨401, "Invalid ML service token"⟩ hv
  have h3 := C8_bad_token_rejected_before_mutation none (some "Bearer wrong")
    (some succeededJob) ⟨"failed", none, none, none⟩
  exact ⟨hv, h2.2.1, h2.2.2, h3.2.1 (by decide)⟩

/-- C9: `create(ownerId, title?, description?)` does not leave `fileKind`
absent — `job_crud.create_job` explicitly stores `file_type = "single"`
on the fresh row. -/
theorem C9_counterexample :
    (create_job {} 7 1 "33333333-3333-3333-3333-333333333333" 0).file_type =
      some "single" ∧
    (create_job {} 7 1 "33333333-3333-3333-3333-333333333333" 0).file_type ≠
      none := by decide

/-- C9 (amended): the created job has status `pending`, `fileKind` set to
the default `"single"` (overwritten later when an artifact is attached),
no file fields, no `completed_at`, and carries exactly the freshly
generated correlation id — distinct generator outputs give distinct
correlation ids. -/
theorem C9_amended (job : JobCreate) (owner_id new_id : Nat)
    (fresh_uuid other_uuid : String) (now : Nat)
    (hu : fresh_uuid ≠ other_uuid) :
    (create_job job owner_id new_id fresh_uuid now).status = "pending" ∧
    (create_job job owner_id new_id fresh_uuid now).file_type =
      some "single" ∧
    (create_job job owner_id new_id fresh_uuid now).uuid = fresh_uuid ∧
    (create_job job owner_id new_id fresh_uuid now).file_path = none ∧
    (create_job job owner_id new_id fresh_uuid now).completed_at = none ∧
    (create_job job owner_id new_id fresh_uuid now).uuid ≠
      (create_job job owner_id new_id other_uuid now).uuid :=
  ⟨rfl, rfl, rfl, rfl, rfl, hu⟩

/-- C9 witness: two concrete generator outputs. -/
theorem C9_witness :
    (create_job {} 7 1 "aaaa" 0).status = "pending" ∧
    (create_job {} 7 1 "aaaa" 0).file_type = some "single" ∧
    (create_job {} 7 1 "aaaa" 0).uuid = "aaaa" ∧
    (create_job {} 7 1 "aaaa" 0).file_path = none ∧
    (create_job {} 7 1 "aaaa" 0).completed_at = none ∧
    (create_job {} 7 1 "aaaa" 0).uuid ≠ (create_job {} 7 1 "bbbb" 0).uuid :=
  C9_amended {} 7 1 "aaaa" "bbbb" 0 (by decide)

/-- C10: `_to_float` is total (a Lean function) and yields `None` on
`None`, on the empty string, and on any string that Python's float parse
rejects after the `','` → `'.'` substitution; and the parser's numeric
record field is exactly `_to_float` of the cell, so a malformed numeric
cell yields a null field rather than a parse failure. -/
theorem C10_to_float_total (s : String) (c : Cell) :
    _to_float Cell.null = none ∧
    _to_float (Cell.str "") = none ∧
    (py_parse_float (strReplace s "," ".") = none →
      _to_float (Cell.str s) = none) ∧
    (_normalize_row [("probability_of_pathology", c)]
        [("probability_of_pathology", 0)]).probability_of_pathology =
      _to_float c := by
  refine ⟨rfl, rfl, fun hp => ?_, rfl⟩
  by_cases hs : s = ""
  · simp [_to_float, hs]
  · simp [_to_float, hs, hp]

/-- C10 witness: a malformed numeric cell (`"12,3abc"`). -/
theorem C10_witness :
    _to_float (Cell.str "12,3abc") = none ∧
    (_normalize_row [("probability_of_pathology", Cell.str "12,3abc")]
        [("probability_of_pathology", 0)]).probability_of_pathology = none := by
  have h := C10_to_float_total "12,3abc" (Cell.str "12,3abc")
  have hn := h.2.2.1 (by decide)
  exact ⟨hn, by rw [h.2.2.2]; exact hn⟩
